import Mathlib

/-!
Shallow embedding of the asynchronous data-lifecycle subsystem of
marapp-services: the SNS subscription middleware
(src/middlewares/subscriber.ts), the S3 object-storage helpers
(s3StreamUpload, s3KeyExists, createLifecyclePolicy) and the
workspace reference-integrity check (checkWorkspaceRefs).

External collaborators (JSON.parse, axios, the S3 backend, the Mongo
store) are modelled as explicit parameters or explicit state, so every
function here is executable and deterministic in its inputs.
-/

namespace MarappServices

/-- A JavaScript value, as far as this subsystem inspects one:
strings, numbers, arrays, objects, booleans, null. -/
inductive JsVal where
  | str (s : String)
  | num (n : Int)
  | arr (xs : List JsVal)
  | obj (fields : List (String × JsVal))
  | jsBool (b : Bool)
  | jsNull

/-- lodash isString. -/
def isString : JsVal → Bool
  | .str _ => true
  | _ => false

/-- lodash isArray. -/
def isArray : JsVal → Bool
  | .arr _ => true
  | _ => false

/-- Severity levels used by the logger calls in the embedded code. -/
inductive LogLevel where
  | debug
  | error
deriving DecidableEq, Repr

/-- One log call: severity plus message. -/
structure LogEntry where
  level : LogLevel
  msg : String
deriving DecidableEq, Repr

namespace Subscriber

/-- The JSON body of an inbound SNS envelope, with the four fields the
middleware reads; each may be absent (undefined in JS). -/
structure SnsBody where
  typeField : Option String
  subscribeURL : Option String
  message : Option String
  unsubscribeURL : Option String
deriving DecidableEq, Repr

/-- An inbound HTTP request as seen by handleSNSMessage: the two SNS
headers and the (possibly absent/undecodable) JSON body. -/
structure SnsRequest where
  messageTypeHeader : Option String
  topicArnHeader : Option String
  body : Option SnsBody
deriving DecidableEq, Repr

/-- Outcome of the axios GET on the SubscribeURL, as observed by the
calling code: the promise either resolves with some HTTP status, or
rejects (network failure or any other axios-raised error). -/
inductive GetResult where
  | resolved (status : Nat)
  | rejected (msg : String)
deriving DecidableEq, Repr

/-- The distinct SubscriptionError throw sites of subscriber.ts, one
constructor per site (in the source they differ by message string). -/
inductive SubError where
  | unsupportedMessageType (eventType : Option String)
  | untrustedTopic (topicArn : Option String)
  | malformedEnvelope
  | handshakeConfirmationFailed (status : Nat)
deriving DecidableEq, Repr

/-- The HTTP status code each SubscriptionError carries in the source. -/
def SubError.httpStatus : SubError → Nat
  | .unsupportedMessageType _ => 400
  | .untrustedTopic _ => 400
  | .malformedEnvelope => 400
  | .handshakeConfirmationFailed _ => 500

/-- res.locals as populated by the middleware before handing off to the
next handler. Slots not assigned by the code stay `none` (undefined). -/
structure Locals where
  snsMessage : Option JsVal
  unsubscribeURL : Option String

/-- The observable effect of one handleSNSMessage invocation:
a direct HTTP response, a hand-off to the next middleware with the
populated locals, a raised SubscriptionError, a raised non-Subscription
error (e.g. a JSON.parse SyntaxError), or a plain return with neither
response nor hand-off. -/
inductive Outcome where
  | respond (status : Nat) (success : Bool)
  | next (locals : Locals)
  | errored (e : SubError)
  | thrown (msg : String)
  | finish

/-- The header values accepted by the first check of handleSNSMessage. -/
def supportedTypes : List String := ["SubscriptionConfirmation", "Notification"]

/-- The JS test `['SubscriptionConfirmation','Notification'].includes(eventType)`
with a possibly-undefined header. -/
def headerSupported : Option String → Bool
  | some t => supportedTypes.contains t
  | none => false

/-- handleSubscriptionResponse from subscriber.ts: GET the SubscribeURL;
on a resolved 200 log debug; on a resolved non-200 throw a 500
SubscriptionError, which the catch logs and rethrows; on a rejected
promise the catch logs the error and, since it is not a
SubscriptionError, swallows it and returns normally. -/
def handleSubscriptionResponse (send : GetResult) :
    Except SubError Unit × List LogEntry :=
  match send with
  | .resolved status =>
      if status = 200 then
        (.ok (), [⟨.debug, "Successfully confirmed SNS subscription."⟩])
      else
        (.error (.handshakeConfirmationFailed status),
         [⟨.error, "Failed to confirm SNS subscription."⟩])
  | .rejected m =>
      (.ok (), [⟨.error, m⟩])

/-- handleSNSMessage from subscriber.ts. `trustedTopicArn` is the
configured SNS_TOPIC_SUBSCRIPTION_ARN; `send` models the axios GET of a
(possibly undefined) SubscribeURL; `parse` models JSON.parse on the
Message string, returning the decoded value or a thrown message. -/
def handleSNSMessage (trustedTopicArn : String)
    (send : Option String → GetResult)
    (parse : String → Except String JsVal)
    (req : SnsRequest) : Outcome × List LogEntry :=
  if headerSupported req.messageTypeHeader = false then
    (.errored (.unsupportedMessageType req.messageTypeHeader), [])
  else if req.topicArnHeader ≠ some trustedTopicArn then
    (.errored (.untrustedTopic req.topicArnHeader), [])
  else
    match req.body with
    | none => (.errored .malformedEnvelope, [])
    | some snsMessage =>
      if snsMessage.typeField = some "SubscriptionConfirmation" then
        match handleSubscriptionResponse (send snsMessage.subscribeURL) with
        | (.ok _, logs) => (.respond 200 true, logs)
        | (.error e, logs) => (.errored e, logs)
      else if snsMessage.typeField = some "Notification" then
        match snsMessage.message with
        | none => (.thrown "SyntaxError: unexpected token", [])
        | some m =>
          match parse m with
          | .error e => (.thrown e, [])
          | .ok v => (.next ⟨some v, none⟩, [])
      else
        (.finish, [])

end Subscriber

namespace Storage

/-- The configuration the storage helpers read: S3_ENDPOINT_URL,
S3_ASSETS_BUCKET and S3_MAP_TILES_TTL. -/
structure S3Config where
  endpointUrl : String
  assetsBucket : String
  mapTilesTTL : Nat
deriving DecidableEq, Repr

/-- One object held by the S3 backend: bucket, key, entity tag and the
user metadata stored with it. -/
structure S3Object where
  bucket : String
  key : String
  etag : String
  metadata : List (String × String)
deriving DecidableEq, Repr

/-- The S3 backend's state: the set of stored objects. -/
structure S3State where
  objects : List S3Object
deriving DecidableEq, Repr

/-- Look up the object stored under the given bucket and key. -/
def S3State.find (st : S3State) (bucket key : String) : Option S3Object :=
  st.objects.find? (fun o => o.bucket == bucket && o.key == key)

/-- Whether a backend call succeeds or is rejected with an error
message — the environment input injected into each S3 operation. -/
inductive BackendFault where
  | ok
  | fail (msg : String)
deriving DecidableEq, Repr

/-- Model of the url-join library: join the parts with single slashes. -/
def urljoin (parts : List String) : String :=
  String.intercalate "/" parts

/-- getStorageUrl from the storage helpers: join endpoint, bucket, key. -/
def getStorageUrl (cfg : S3Config) (bucket key : String) : String :=
  urljoin [cfg.endpointUrl, bucket, key]

/-- The StorageEvent record returned by the storage helpers. The upload
path does not set `metadata`; the existence probe does. -/
structure StorageEvent where
  bucket : String
  key : String
  storageUrl : String
  etag : String
  metadata : Option (List (String × String))
deriving DecidableEq, Repr

/-- The PutObjectRequest the upload helper builds for the backend. -/
structure PutObjectRequest where
  bucket : String
  key : String
  body : String
  contentType : String
  acl : String
  cacheControl : String
  metadata : Option (List (String × String))
deriving DecidableEq, Repr

/-- What s3.upload resolves with: Location, Key, Bucket, ETag. -/
structure S3UploadMeta where
  location : String
  key : String
  bucket : String
  etag : String
deriving DecidableEq, Repr

/-- UploadError thrown by the storage helpers. -/
structure UploadError where
  msg : String
deriving DecidableEq, Repr

/-- Modelled S3 backend put: stores the object under (bucket, key),
replacing any previous object there, computes the entity tag with the
backend's checksum function `etagFn`, and echoes bucket/key/etag back. -/
def s3PutBackend (etagFn : String → String) (st : S3State)
    (r : PutObjectRequest) : S3State × S3UploadMeta :=
  let obj : S3Object :=
    { bucket := r.bucket, key := r.key, etag := etagFn r.body,
      metadata := r.metadata.getD [] }
  (⟨obj :: st.objects.filter (fun o => !(o.bucket == r.bucket && o.key == r.key))⟩,
   { location := urljoin [r.bucket, r.key], key := r.key,
     bucket := r.bucket, etag := obj.etag })

/-- s3StreamUpload from the storage helpers: build the put request
(public-read ACL, cache-control from the tile TTL), hand it to the
backend; on success return the StorageEvent echoing the backend's
Key/Bucket/ETag with the canonical storage URL; on a backend error log
it and throw UploadError with the backend's message. -/
def s3StreamUpload (cfg : S3Config) (etagFn : String → String)
    (st : S3State) (fault : BackendFault) (readable : String)
    (keyPath contentType : String) (metadata : Option (List (String × String)))
    (bucketName : String) :
    Except UploadError StorageEvent × S3State × List LogEntry :=
  let config : PutObjectRequest :=
    { bucket := bucketName, key := keyPath, body := readable,
      contentType := contentType, acl := "public-read",
      cacheControl := "max-age=" ++ toString cfg.mapTilesTTL,
      metadata := metadata }
  match fault with
  | .fail m =>
      (.error ⟨"Failed to upload file to S3. " ++ m⟩, st, [⟨.error, m⟩])
  | .ok =>
      let res := s3PutBackend etagFn st config
      (.ok { key := res.2.key, bucket := res.2.bucket, etag := res.2.etag,
             metadata := none,
             storageUrl := getStorageUrl cfg res.2.bucket res.2.key },
       res.1, [⟨.debug, "successfully uploaded: " ++ res.2.location⟩])

/-- What one headObject call yields: the stored object, a rejection
with code NotFound, or a rejection with some other backend error. -/
inductive HeadOutcome where
  | found (o : S3Object)
  | notFound
  | failed (msg : String)

/-- Modelled S3 backend head: a metadata-only fetch. With no injected
fault it resolves with the stored object or rejects with code NotFound;
an injected fault rejects with a non-NotFound error. -/
def s3HeadBackend (st : S3State) (fault : BackendFault)
    (bucket key : String) : HeadOutcome :=
  match fault with
  | .fail m => .failed m
  | .ok =>
      match S3State.find st bucket key with
      | some o => .found o
      | none => .notFound

/-- s3KeyExists from the storage helpers: headObject on (bucket, key);
if found, log debug and return the StorageEvent built from the request's
Key/Bucket and the backend's ETag/Metadata; on any rejection log the
error message, then rethrow as UploadError unless the code is NotFound,
in which case return undefined (modelled as `none`). -/
def s3KeyExists (cfg : S3Config) (st : S3State) (fault : BackendFault)
    (keyPath bucketName : String) :
    Except UploadError (Option StorageEvent) × List LogEntry :=
  match s3HeadBackend st fault bucketName keyPath with
  | .found o =>
      (.ok (some { key := keyPath, bucket := bucketName, etag := o.etag,
                   metadata := some o.metadata,
                   storageUrl := getStorageUrl cfg bucketName keyPath }),
       [⟨.debug, "found S3 key: " ++ keyPath⟩])
  | .notFound =>
      (.ok none, [⟨.error, "NotFound"⟩])
  | .failed m =>
      (.error ⟨"Failed to request file meta from S3. " ++ m⟩, [⟨.error, m⟩])

/-- One expiration rule of a lifecycle configuration. -/
structure LifecycleRule where
  expirationDays : Nat
  filterPref : String
  statusEnabled : Bool
deriving DecidableEq, Repr

/-- The putBucketLifecycleConfiguration request sent to the backend. -/
structure PutLifecycleReq where
  bucket : String
  rules : List LifecycleRule
deriving DecidableEq, Repr

/-- S3Error thrown by createLifecyclePolicy on a bad key argument. -/
structure S3Err where
  msg : String
deriving DecidableEq, Repr

/-- The strings of a list of JS values (the cast the source applies
once every element is known to be a string). -/
def stringsOf : List JsVal → List String
  | [] => []
  | .str s :: xs => s :: stringsOf xs
  | _ :: xs => stringsOf xs

/-- createLifecyclePolicy from the storage helpers. The key argument is
a raw JS value: a string is wrapped into a singleton list, an array is
accepted when every element is a string, and any other shape throws
S3Error before any backend request is issued. One Enabled expiration
rule per key is built and the bucket's lifecycle configuration is
replaced with them; a backend failure is logged and yields `false`
instead of raising. The list of issued requests is returned alongside. -/
def createLifecyclePolicy (fault : BackendFault) (objectKeyPref : JsVal)
    (bucketName : String) (expDaysTTL : Nat) :
    Except S3Err Bool × List PutLifecycleReq × List LogEntry :=
  let go : List String → Except S3Err Bool × List PutLifecycleReq × List LogEntry :=
    fun keyPrefList =>
      let params : PutLifecycleReq :=
        { bucket := bucketName,
          rules := keyPrefList.map (fun p =>
            { expirationDays := expDaysTTL, filterPref := p,
              statusEnabled := true }) }
      match fault with
      | .ok =>
          (.ok true, [params],
           [⟨.debug, "object key"⟩, ⟨.debug, "client responded"⟩])
      | .fail m =>
          (.ok false, [params], [⟨.debug, "object key"⟩, ⟨.error, m⟩])
  if isString objectKeyPref then
    match objectKeyPref with
    | .str s => go [s]
    | _ => (.error ⟨"Unsupported object key format."⟩, [], [])
  else if isArray objectKeyPref then
    match objectKeyPref with
    | .arr xs =>
        if xs.all isString then go (stringsOf xs)
        else (.error ⟨"Unsupported object key format."⟩, [], [])
    | _ => (.error ⟨"Unsupported object key format."⟩, [], [])
  else
    (.error ⟨"Unsupported object key format."⟩, [], [])

end Storage

namespace Refs

/-- A stored document as the integrity check sees it after the
projection .select: its id and its (possibly absent or null)
organization attribute. -/
structure StoredDoc where
  id : String
  organization : Option String
deriving DecidableEq, Repr

/-- The document store the query runs against. -/
structure Store where
  docs : List StoredDoc
deriving DecidableEq, Repr

/-- The backend query model.find with an id-in-set filter: the
documents of the store whose id belongs to the reference set. -/
def findRefs (store : Store) (refIds : List String) : List StoredDoc :=
  store.docs.filter (fun d => refIds.contains d.id)

/-- The two throw sites of checkWorkspaceRefs: the plain Error for a
missing organization parameter, and the DocumentError carrying an HTTP
status for invalid references. -/
inductive RefsError where
  | missingOrganization
  | documentError (httpStatus : Nat)
deriving DecidableEq, Repr

/-- checkWorkspaceRefs from the model helpers: reject an empty
organization; with a non-empty reference list, fetch the referenced
documents that exist and require every fetched document's organization
attribute to equal the expected organization, else throw DocumentError
with status 400. The second component lists the store queries issued. -/
def checkWorkspaceRefs (store : Store) (refIds : List String)
    (organization : String) :
    Except RefsError Unit × List (List String) :=
  if organization = "" then
    (.error .missingOrganization, [])
  else if refIds.isEmpty then
    (.ok (), [])
  else
    let res := findRefs store refIds
    let isValid := res.all (fun r => r.organization == some organization)
    if isValid then (.ok (), [refIds])
    else (.error (.documentError 400), [refIds])

end Refs

end MarappServices

open MarappServices MarappServices.Subscriber MarappServices.Storage MarappServices.Refs

/-- C1 (amended): on the handshake path, when the GET on the
SubscribeURL resolves with a non-200 status, handleSNSMessage raises
the 500 HandshakeConfirmationFailed SubscriptionError (no success
acknowledgment, no forwarding); but when the GET rejects (network
failure), the error is only logged at error severity and swallowed, and
the generic success acknowledgment is sent. -/
theorem C1_handshake_failure_amended (trustedTopicArn : String)
    (send : Option String → GetResult) (parse : String → Except String JsVal)
    (req : SnsRequest) (b : SnsBody)
    (hType : headerSupported req.messageTypeHeader = true)
    (hTopic : req.topicArnHeader = some trustedTopicArn)
    (hBody : req.body = some b)
    (hHandshake : b.typeField = some "SubscriptionConfirmation") :
    (∀ s, send b.subscribeURL = .resolved s → s ≠ 200 →
      (handleSNSMessage trustedTopicArn send parse req).fst
        = .errored (.handshakeConfirmationFailed s) ∧
      (SubError.handshakeConfirmationFailed s).httpStatus = 500) ∧
    (∀ m, send b.subscribeURL = .rejected m →
      (handleSNSMessage trustedTopicArn send parse req).fst
        = .respond 200 true ∧
      LogEntry.mk .error m ∈ (handleSNSMessage trustedTopicArn send parse req).snd) := by
  constructor
  · intro s hs hne
    simp [handleSNSMessage, hType, hTopic, hBody, hHandshake, hs,
      handleSubscriptionResponse, hne, SubError.httpStatus]
  · intro m hm
    simp [handleSNSMessage, hType, hTopic, hBody, hHandshake, hm,
      handleSubscriptionResponse]

/-- C1 witness: a concrete handshake envelope whose confirmation GET
resolves with status 404 raises the 500 HandshakeConfirmationFailed
error. -/
theorem C1_handshake_failure_amended_witness :
    (handleSNSMessage "arn:trusted" (fun _ => .resolved 404)
      (fun s => .error s)
      { messageTypeHeader := some "SubscriptionConfirmation",
        topicArnHeader := some "arn:trusted",
        body := some { typeField := some "SubscriptionConfirmation",
                       subscribeURL := some "https://confirm",
                       message := none, unsubscribeURL := none } }).fst
      = .errored (.handshakeConfirmationFailed 404) :=
  ((C1_handshake_failure_amended "arn:trusted" (fun _ => .resolved 404)
      (fun s => .error s)
      { messageTypeHeader := some "SubscriptionConfirmation",
        topicArnHeader := some "arn:trusted",
        body := some { typeField := some "SubscriptionConfirmation",
                       subscribeURL := some "https://confirm",
                       message := none, unsubscribeURL := none } }
      { typeField := some "SubscriptionConfirmation",
        subscribeURL := some "https://confirm",
        message := none, unsubscribeURL := none }
      rfl rfl rfl rfl).1 404 rfl (by decide)).1

/-- C1 counterexample: a handshake envelope whose confirmation GET
fails with a network error (rejected promise) does NOT raise
HandshakeConfirmationFailed — the error is swallowed and the generic
success acknowledgment (HTTP 200, success body) is sent, contradicting
the claim. -/
theorem C1_counterexample :
    (handleSNSMessage "arn:trusted" (fun _ => .rejected "ECONNREFUSED")
      (fun s => .error s)
      { messageTypeHeader := some "SubscriptionConfirmation",
        topicArnHeader := some "arn:trusted",
        body := some { typeField := some "SubscriptionConfirmation",
                       subscribeURL := some "https://confirm",
                       message := none, unsubscribeURL := none } }).fst
      = Outcome.respond 200 true := rfl

/-- C4 (amended): for every envelope whose message-type header is one
of the two supported values and whose topic-identifier header differs
from the trusted topic, handleSNSMessage rejects with the 400
UntrustedTopic error, regardless of the body. An unsupported
message-type header is instead rejected by the earlier type check. -/
theorem C4_untrusted_topic_amended (trustedTopicArn : String)
    (send : Option String → GetResult) (parse : String → Except String JsVal)
    (req : SnsRequest)
    (hType : headerSupported req.messageTypeHeader = true)
    (hTopic : req.topicArnHeader ≠ some trustedTopicArn) :
    (handleSNSMessage trustedTopicArn send parse req).fst
      = .errored (.untrustedTopic req.topicArnHeader) ∧
    (SubError.untrustedTopic req.topicArnHeader).httpStatus = 400 := by
  simp [handleSNSMessage, hType, hTopic, SubError.httpStatus]

/-- C4 witness: a concrete Notification-typed envelope with a wrong
topic-identifier is rejected with UntrustedTopic. -/
theorem C4_untrusted_topic_amended_witness :
    (handleSNSMessage "arn:trusted" (fun _ => .resolved 200)
      (fun s => .error s)
      { messageTypeHeader := some "Notification",
        topicArnHeader := some "arn:other", body := none }).fst
      = .errored (.untrustedTopic (some "arn:other")) ∧
    (SubError.untrustedTopic (some "arn:other")).httpStatus = 400 :=
  C4_untrusted_topic_amended "arn:trusted" (fun _ => .resolved 200)
    (fun s => .error s)
    { messageTypeHeader := some "Notification",
      topicArnHeader := some "arn:other", body := none }
    rfl (by decide)

/-- C4 counterexample: an envelope with an unsupported message-type
header AND an untrusted topic-identifier is rejected with
UnsupportedMessageType, not UntrustedTopic — the type check runs first,
so the claim's "regardless of the message-type header value" fails. -/
theorem C4_counterexample :
    (handleSNSMessage "arn:trusted" (fun _ => .resolved 200)
      (fun s => .error s)
      { messageTypeHeader := some "Garbage",
        topicArnHeader := some "arn:other", body := none }).fst
      = Outcome.errored (SubError.unsupportedMessageType (some "Garbage")) ∧
    (handleSNSMessage "arn:trusted" (fun _ => .resolved 200)
      (fun s => .error s)
      { messageTypeHeader := some "Garbage",
        topicArnHeader := some "arn:other", body := none }).fst
      ≠ Outcome.errored (SubError.untrustedTopic (some "arn:other")) := by
  refine ⟨rfl, fun h => ?_⟩
  simp [handleSNSMessage, headerSupported, supportedTypes] at h

/-- C5 (amended): for every valid notification envelope (trusted topic,
supported message-type header, body of Type Notification with a Message
that decodes), handleSNSMessage attaches the decoded payload to
res.locals and passes control to the next handler without sending any
HTTP response; the accompanying UnsubscribeURL is read but NOT attached
to the side-channel. -/
theorem C5_notification_amended (trustedTopicArn : String)
    (send : Option String → GetResult) (parse : String → Except String JsVal)
    (req : SnsRequest) (b : SnsBody) (m : String) (v : JsVal)
    (hType : headerSupported req.messageTypeHeader = true)
    (hTopic : req.topicArnHeader = some trustedTopicArn)
    (hBody : req.body = some b)
    (hNotif : b.typeField = some "Notification")
    (hMsg : b.message = some m)
    (hParse : parse m = .ok v) :
    handleSNSMessage trustedTopicArn send parse req
      = (.next { snsMessage := some v, unsubscribeURL := none }, []) := by
  simp [handleSNSMessage, hType, hTopic, hBody, hNotif, hMsg, hParse]

/-- C5 witness: the spec's scenario envelope is forwarded downstream
with the decoded payload attached. -/
theorem C5_notification_amended_witness :
    handleSNSMessage "arn:trusted" (fun _ => .resolved 200)
      (fun _ => .ok (JsVal.obj [("tenant", JsVal.str "t1")]))
      { messageTypeHeader := some "Notification",
        topicArnHeader := some "arn:trusted",
        body := some { typeField := some "Notification", subscribeURL := none,
                       message := some "\x7b\"tenant\":\"t1\"\x7d",
                       unsubscribeURL := some "https://x" } }
      = (.next { snsMessage := some (JsVal.obj [("tenant", JsVal.str "t1")]),
                 unsubscribeURL := none }, []) :=
  C5_notification_amended "arn:trusted" (fun _ => .resolved 200)
    (fun _ => .ok (JsVal.obj [("tenant", JsVal.str "t1")]))
    { messageTypeHeader := some "Notification",
      topicArnHeader := some "arn:trusted",
      body := some { typeField := some "Notification", subscribeURL := none,
                     message := some "\x7b\"tenant\":\"t1\"\x7d",
                     unsubscribeURL := some "https://x" } }
    { typeField := some "Notification", subscribeURL := none,
      message := some "\x7b\"tenant\":\"t1\"\x7d",
      unsubscribeURL := some "https://x" }
    "\x7b\"tenant\":\"t1\"\x7d" (JsVal.obj [("tenant", JsVal.str "t1")])
    rfl rfl rfl rfl rfl rfl

/-- C5 counterexample: for the spec's scenario envelope (which carries
UnsubscribeURL https://x), the locals handed to the next handler have
no unsubscribe URL attached — only the decoded payload — contradicting
the claim that the callback URL is attached to the side-channel. -/
theorem C5_counterexample :
    (handleSNSMessage "arn:trusted" (fun _ => .resolved 200)
      (fun _ => .ok (JsVal.obj [("tenant", JsVal.str "t1")]))
      { messageTypeHeader := some "Notification",
        topicArnHeader := some "arn:trusted",
        body := some { typeField := some "Notification", subscribeURL := none,
                       message := some "\x7b\"tenant\":\"t1\"\x7d",
                       unsubscribeURL := some "https://x" } }).fst
      = Outcome.next { snsMessage := some (JsVal.obj [("tenant", JsVal.str "t1")]),
                       unsubscribeURL := none } := rfl

/-- C9: an envelope that passes the header type check, the topic check
and the body-presence check, but whose body Type is neither
SubscriptionConfirmation nor Notification, completes with no HTTP
response, no raised error and no hand-off to the next handler. -/
theorem C9_unknown_body_type (trustedTopicArn : String)
    (send : Option String → GetResult) (parse : String → Except String JsVal)
    (req : SnsRequest) (b : SnsBody)
    (hType : headerSupported req.messageTypeHeader = true)
    (hTopic : req.topicArnHeader = some trustedTopicArn)
    (hBody : req.body = some b)
    (h1 : b.typeField ≠ some "SubscriptionConfirmation")
    (h2 : b.typeField ≠ some "Notification") :
    handleSNSMessage trustedTopicArn send parse req = (.finish, []) := by
  simp [handleSNSMessage, hType, hTopic, hBody, h1, h2]

/-- C9 witness: a concrete trusted envelope whose body Type is
"Whatever" yields the silent-finish outcome. -/
theorem C9_unknown_body_type_witness :
    handleSNSMessage "arn:trusted" (fun _ => .resolved 200)
      (fun s => .error s)
      { messageTypeHeader := some "Notification",
        topicArnHeader := some "arn:trusted",
        body := some { typeField := some "Whatever", subscribeURL := none,
                       message := none, unsubscribeURL := none } }
      = (.finish, []) :=
  C9_unknown_body_type "arn:trusted" (fun _ => .resolved 200)
    (fun s => .error s)
    { messageTypeHeader := some "Notification",
      topicArnHeader := some "arn:trusted",
      body := some { typeField := some "Whatever", subscribeURL := none,
                     message := none, unsubscribeURL := none } }
    { typeField := some "Whatever", subscribeURL := none,
      message := none, unsubscribeURL := none }
    rfl rfl rfl (by decide) (by decide)

/-- C2: with a non-empty organization, checkWorkspaceRefs succeeds
exactly when every referenced document that exists in the store has its
organization attribute equal to the expected one; the empty reference
set succeeds with no store query; any failure on a non-empty reference
set is the 400 DocumentError. -/
theorem C2_workspace_refs (store : Store) (refIds : List String)
    (organization : String) (hOrg : organization ≠ "") :
    ((checkWorkspaceRefs store refIds organization).fst = .ok () ↔
      ∀ d ∈ findRefs store refIds, d.organization = some organization) ∧
    (refIds = [] → checkWorkspaceRefs store refIds organization = (.ok (), [])) ∧
    ((checkWorkspaceRefs store refIds organization).fst ≠ .ok () →
      (checkWorkspaceRefs store refIds organization).fst
        = .error (.documentError 400)) := by
  by_cases hE : refIds = []
  · subst hE
    simp [checkWorkspaceRefs, findRefs, hOrg]
  · have hE2 : refIds.isEmpty = false := by
      cases refIds with
      | nil => exact absurd rfl hE
      | cons a as => rfl
    by_cases hAll : (findRefs store refIds).all
        (fun r => r.organization == some organization) = true
    · simp [checkWorkspaceRefs, hOrg, hE2, hAll, hE]
      simpa [List.all_eq_true] using hAll
    · simp [checkWorkspaceRefs, hOrg, hE2, hAll, hE]
      simpa [List.all_eq_true] using hAll

/-- C2 witness: a store holding one document of org1 referenced by a
singleton reference set passes the check. -/
theorem C2_workspace_refs_witness :
    (checkWorkspaceRefs ⟨[⟨"a", some "org1"⟩]⟩ ["a"] "org1").fst = .ok () :=
  (C2_workspace_refs ⟨[⟨"a", some "org1"⟩]⟩ ["a"] "org1" (by decide)).1.mpr
    (by decide)

/-- C10: with a non-empty organization, if some referenced document
exists in the store but its organization attribute is absent (or null),
checkWorkspaceRefs throws the 400 DocumentError. -/
theorem C10_missing_attribute (store : Store) (refIds : List String)
    (organization : String) (d : StoredDoc) (hOrg : organization ≠ "")
    (hMem : d ∈ findRefs store refIds) (hNone : d.organization = none) :
    (checkWorkspaceRefs store refIds organization).fst
      = .error (.documentError 400) := by
  have hE2 : refIds.isEmpty = false := by
    cases refIds with
    | nil => simp [findRefs] at hMem
    | cons a as => rfl
  have hAll : (findRefs store refIds).all
      (fun r => r.organization == some organization) = false := by
    rw [List.all_eq_false]
    exact ⟨d, hMem, by simp [hNone]⟩
  simp [checkWorkspaceRefs, hOrg, hE2, hAll]

/-- C10 witness: a referenced document with no organization attribute
fails the check even though no reference crosses tenants. -/
theorem C10_missing_attribute_witness :
    (checkWorkspaceRefs ⟨[⟨"a", none⟩]⟩ ["a"] "org1").fst
      = .error (.documentError 400) :=
  C10_missing_attribute ⟨[⟨"a", none⟩]⟩ ["a"] "org1" ⟨"a", none⟩
    (by decide) (by simp [findRefs]) rfl

/-- C3 (amended): for a key that does not exist, s3KeyExists resolves
with an absent result (`none`) instead of raising, though it does log
the NotFound at error severity; a backend failure whose code is not
NotFound raises UploadError. -/
theorem C3_key_not_found_amended (cfg : S3Config) (st : S3State)
    (keyPath bucketName : String)
    (hAbsent : S3State.find st bucketName keyPath = none) :
    s3KeyExists cfg st .ok keyPath bucketName
      = (.ok none, [⟨.error, "NotFound"⟩]) ∧
    (∀ m, (s3KeyExists cfg st (.fail m) keyPath bucketName).fst
      = .error ⟨"Failed to request file meta from S3. " ++ m⟩) := by
  constructor
  · simp [s3KeyExists, s3HeadBackend, hAbsent]
  · intro m; rfl

/-- C3 witness: probing an empty store yields the absent result with
the error-severity NotFound log. -/
theorem C3_key_not_found_amended_witness :
    s3KeyExists ⟨"http://s3", "assets", 3600⟩ ⟨[]⟩ .ok "missing.png" "assets"
      = (.ok none, [⟨.error, "NotFound"⟩]) :=
  (C3_key_not_found_amended ⟨"http://s3", "assets", 3600⟩ ⟨[]⟩
    "missing.png" "assets" rfl).1

/-- C3 counterexample: probing a key absent from the store returns the
absent result but DOES log at error severity, contradicting the claim
that no error-severity log is emitted. -/
theorem C3_counterexample :
    (s3KeyExists ⟨"http://s3", "assets", 3600⟩ ⟨[]⟩ .ok "missing.png"
      "assets").fst = .ok none ∧
    (s3KeyExists ⟨"http://s3", "assets", 3600⟩ ⟨[]⟩ .ok "missing.png"
      "assets").snd.any (fun e => e.level == LogLevel.error) = true :=
  ⟨rfl, rfl⟩

/-- C6: a key argument that is neither a string nor an array whose
elements are all strings makes createLifecyclePolicy throw S3Error with
no backend request issued (and no log emitted). -/
theorem C6_bad_key_shape (fault : BackendFault) (v : JsVal)
    (bucketName : String) (expDaysTTL : Nat)
    (hNotStr : isString v = false)
    (hArr : ∀ xs, v = JsVal.arr xs → xs.all isString = false) :
    createLifecyclePolicy fault v bucketName expDaysTTL
      = (.error ⟨"Unsupported object key format."⟩, [], []) := by
  cases v with
  | str s => simp [isString] at hNotStr
  | arr xs =>
      have h := hArr xs rfl
      simp [createLifecyclePolicy, isString, isArray, h]
  | num n => rfl
  | obj fields => rfl
  | jsBool b => rfl
  | jsNull => rfl

/-- C6 witness: a numeric key argument fails fast with zero backend
requests. -/
theorem C6_bad_key_shape_witness :
    createLifecyclePolicy .ok (JsVal.num 5) "assets" 1
      = (.error ⟨"Unsupported object key format."⟩, [], []) :=
  C6_bad_key_shape .ok (JsVal.num 5) "assets" 1 rfl
    (fun _ h => JsVal.noConfusion h)

/-- C7: for a well-shaped key argument (a string, or an array whose
elements are all strings), createLifecyclePolicy never raises: it
returns true when the backend accepts the configuration and false when
the backend call fails. -/
theorem C7_lifecycle_boolean (fault : BackendFault) (v : JsVal)
    (bucketName : String) (expDaysTTL : Nat)
    (hShape : isString v = true ∨
      ∃ xs, v = JsVal.arr xs ∧ xs.all isString = true) :
    (createLifecyclePolicy fault v bucketName expDaysTTL).fst
      = .ok (match fault with | .ok => true | .fail _ => false) := by
  rcases hShape with hs | ⟨xs, rfl, hall⟩
  · cases v with
    | str s => cases fault <;> rfl
    | num n => simp [isString] at hs
    | arr xs => simp [isString] at hs
    | obj fields => simp [isString] at hs
    | jsBool b => simp [isString] at hs
    | jsNull => simp [isString] at hs
  · cases fault <;>
      simp [createLifecyclePolicy, isString, isArray, hall]

/-- C7 witness: a string key argument with a failing backend yields
false rather than raising. -/
theorem C7_lifecycle_boolean_witness :
    (createLifecyclePolicy (.fail "AccessDenied") (JsVal.str "tiles/t1/")
      "assets" 1).fst = .ok false :=
  C7_lifecycle_boolean (.fail "AccessDenied") (JsVal.str "tiles/t1/")
    "assets" 1 (Or.inl rfl)

/-- C8: uploading a stream under key K and bucket B and then probing K
in B on the resulting backend state returns a StorageEvent echoing K
and B, carrying the same entity tag the upload returned (the backend
checksum of the unmodified content), and the storage URL of both events
is the join of the configured endpoint, B and K. -/
theorem C8_upload_exists_roundtrip (cfg : S3Config)
    (etagFn : String → String) (st : S3State)
    (readable keyPath contentType : String)
    (metadata : Option (List (String × String))) (bucketName : String) :
    (s3StreamUpload cfg etagFn st .ok readable keyPath contentType
        metadata bucketName).fst
      = .ok { key := keyPath, bucket := bucketName, etag := etagFn readable,
              metadata := none,
              storageUrl := getStorageUrl cfg bucketName keyPath } ∧
    (s3KeyExists cfg
        (s3StreamUpload cfg etagFn st .ok readable keyPath contentType
          metadata bucketName).snd.fst
        .ok keyPath bucketName).fst
      = .ok (some { key := keyPath, bucket := bucketName,
                    etag := etagFn readable,
                    metadata := some (metadata.getD []),
                    storageUrl := getStorageUrl cfg bucketName keyPath }) := by
  constructor
  · rfl
  · simp [s3StreamUpload, s3PutBackend, s3KeyExists, s3HeadBackend,
      S3State.find, List.find?]
